import Mathlib

/-!
Verification development for the averroes query-processing service.

The definitions below are a shallow embedding of the Rust sources:

* `src/crates/core/src/api/middleware.rs`     — the multi-window rate limiter;
* `src/crates/core/src/actors/analyzer_actor.rs` — the analysis worker;
* `src/crates/core/src/actors/scraper_actor.rs`  — the scrape coordinator;
* `src/crates/core/src/actors/history_actor.rs`  — the history store;
* `src/crates/core/src/models/*.rs`           — the data model.

Modelling conventions:

* Rust `f64` values are modelled as exact rationals (`ℚ`); the arithmetic the
  code performs on them (sums, divisions by small constants, `min`/`max`,
  comparisons) is exact at the values involved.
* Machine integers (`u64`, `u32`) are modelled as `ℕ`; where the source casts a
  possibly-negative `i64` to `u64` the cast is modelled explicitly as a
  reduction modulo `2 ^ 64`.
* `tokio` mailboxes and `await` points are elided: each actor method is a pure
  function of its inputs and of its owned state, returning the reply and the
  updated state, matching the one-message-at-a-time execution of the actor
  loops.
* External collaborators (the AI provider, the HTTP transport, HTML content
  extraction, fresh UUID generation, clock reads, `f64` display formatting and
  `f64` parsing from text) are inputs: they appear as explicit oracle fields of
  environment records, and theorems quantify over them.
* Rust string operations are modelled by character-list functions defined
  here (`strLower`, `strContainsSub`, ...); Unicode-specific behaviour of
  `to_lowercase`/`trim` is modelled at ASCII granularity, which covers every
  string the embedded code manipulates.
-/

/-! ## String helpers (models of Rust `str` methods) -/

/-- Model of Rust `str::to_lowercase` (ASCII granularity). -/
def strLower (s : String) : String :=
  ⟨s.data.map Char.toLower⟩

/-- Boolean prefix test on character lists. -/
def listIsPrefix : List Char → List Char → Bool
  | [], _ => true
  | _ :: _, [] => false
  | a :: as, b :: bs => a == b && listIsPrefix as bs

/-- Boolean infix (substring) test on character lists. -/
def listIsInfix (needle : List Char) : List Char → Bool
  | [] => needle.isEmpty
  | c :: cs => listIsPrefix needle (c :: cs) || listIsInfix needle cs

/-- Model of Rust `str::contains` (substring containment). -/
def strContainsSub (hay needle : String) : Bool :=
  listIsInfix needle.data hay.data

/-- Model of Rust `str::starts_with`. -/
def strStartsWith (s pre : String) : Bool :=
  listIsPrefix pre.data s.data

/-- Model of Rust `str::ends_with`. -/
def strEndsWith (s suf : String) : Bool :=
  listIsPrefix suf.data.reverse s.data.reverse

/-- Model of Rust `str::is_empty`. -/
def strIsEmpty (s : String) : Bool :=
  s.data.isEmpty

/-- Model of Rust `chars().take(n).collect::<String>()`. -/
def strTake (s : String) (n : ℕ) : String :=
  ⟨s.data.take n⟩

/-- Splitting a character list at every occurrence of a separator character. -/
def listSplitOnChar (sep : Char) : List Char → List (List Char)
  | [] => [[]]
  | c :: cs =>
    match listSplitOnChar sep cs with
    | [] => [[c]]
    | r :: rs => if c == sep then [] :: r :: rs else (c :: r) :: rs

/-- Model of Rust `str::split(sep)` collected to a list. -/
def strSplitOnChar (sep : Char) (s : String) : List String :=
  (listSplitOnChar sep s.data).map (fun l => ⟨l⟩)

/-- ASCII whitespace, the cases of Rust whitespace relevant to this code. -/
def isWsChar (c : Char) : Bool :=
  c == ' ' || c == '\t' || c == '\n' || c == '\r'

/-- Model of Rust `str::trim` (ASCII granularity). -/
def strTrim (s : String) : String :=
  ⟨((s.data.dropWhile isWsChar).reverse.dropWhile isWsChar).reverse⟩

/-- Strip one trailing carriage return from a line, as Rust `str::lines` does. -/
def stripCr (l : List Char) : List Char :=
  match l.getLast? with
  | some c => if c == '\r' then l.dropLast else l
  | none => l

/-- Model of Rust `str::lines`: split on newline, drop a final empty segment,
strip a trailing carriage return from each line. -/
def rustLines (s : String) : List String :=
  let raw := listSplitOnChar '\n' s.data
  let raw := if raw.getLast? = some [] then raw.dropLast else raw
  raw.map (fun l => ⟨stripCr l⟩)

/-- Model of `Vec<String>::join(sep)` / `itertools` joining. -/
def strJoin (sep : String) : List String → String
  | [] => ""
  | [s] => s
  | s :: rest => s ++ sep ++ strJoin sep rest

/-- Concatenation of a list of strings. -/
def strConcat : List String → String
  | [] => ""
  | s :: rest => s ++ strConcat rest

/-! ## Data model (src/crates/core/src/models) -/

/-- Model of `uuid::Uuid`; the code moves UUIDs around as opaque identifiers,
so they are modelled as strings. -/
abbrev Uuid := String

/-- Islamic ruling principles (`models/fatwa.rs`). -/
inductive IslamicPrinciple where
  | Halal
  | Haram
  | Makruh
  | Mustahab
  | Mubah
  | Riba
  | Gharar
  | Maysir
  | Syubhat
deriving DecidableEq, Repr

/-- Maqashid Syariah principle assessment (`models/fatwa.rs`). -/
structure MaqashidPrinciple where
  name : String
  category : String
  description : String
  relevance_score : ℚ
deriving DecidableEq, Repr

/-- Reference to a supporting fatwa (`models/fatwa.rs`). -/
structure FatwaReference where
  fatwa_id : Uuid
  relevance_score : ℚ
  excerpt : String
  reasoning : String
deriving DecidableEq, Repr

/-- Islamic analysis result (`models/fatwa.rs`). -/
structure IslamicAnalysis where
  ruling : IslamicPrinciple
  confidence : ℚ
  reasoning : String
  supporting_fatwas : List FatwaReference
  risk_factors : List String
  recommendations : List String
  maqashid_assessment : List MaqashidPrinciple
deriving DecidableEq, Repr

/-- Token standard (`models/token.rs`). -/
inductive TokenStandard where
  | SPL
  | ERC20
  | Other (name : String)
deriving DecidableEq, Repr

/-- Blockchain network (`models/token.rs`). -/
inductive BlockchainNetwork where
  | Solana
  | Ethereum
  | BSC
  | Polygon
  | Other (name : String)
deriving DecidableEq, Repr

/-- Universal token metadata (`models/token.rs`). -/
structure TokenMetadata where
  name : String
  symbol : String
  contract_address : String
  decimals : ℕ
  description : Option String
  image_url : Option String
  creator : Option String
  verified : Bool
  token_standard : TokenStandard
  blockchain : BlockchainNetwork
deriving DecidableEq, Repr

/-- Token price data (`models/token.rs`). -/
structure TokenPriceData where
  price_usd : ℚ
  price_change_24h : ℚ
  volume_24h : ℕ
  market_cap : ℕ
  total_supply : Option ℚ
  last_updated : ℕ
deriving DecidableEq, Repr

/-- Liquidity pool information (`models/token.rs`). -/
structure LiquidityPool where
  dex_name : String
  pool_address : String
  liquidity_usd : ℚ
  volume_24h : ℚ
deriving DecidableEq, Repr

/-- Solana-specific token information (`models/token.rs`). -/
structure SolanaTokenInfo where
  pubkey : String
  metadata : TokenMetadata
  price_data : Option TokenPriceData
  holders : Option ℕ
  liquidity_pools : List LiquidityPool
  is_verified : Bool
  risk_score : Option ℚ
deriving DecidableEq, Repr

/-- Query kinds (`models/query.rs`). -/
inductive QueryType where
  | Text (text : String)
  | Audio (audio_data : List ℕ)
  | TokenTicker (ticker : String)
  | ContractAddress (address : String)
  | FollowUp (original_query_id : Uuid) (question : String)
deriving DecidableEq, Repr

/-- User query input (`models/query.rs`). -/
structure Query where
  id : Uuid
  query_type : QueryType
  user_id : Option String
  timestamp : ℕ
  language : String
  context : Option String
deriving DecidableEq, Repr

/-- Analysis processing status (`models/analysis.rs`). -/
inductive AnalysisStatus where
  | Pending
  | InProgress
  | Completed
  | Failed
  | Cancelled
deriving DecidableEq, Repr

/-- Categories of scraped-data source (`models/analysis.rs`). -/
inductive ScrapedDataType where
  | CryptoHalalVerification
  | IslamicFinanceContent
  | UserProvidedContent
  | GeneralCryptoContent
  | Documentation
  | Official
  | News
  | Forum
  | Social
  | UserProvided
deriving DecidableEq, Repr

/-- Scraped data from an external source (`models/analysis.rs`). -/
structure ScrapedData where
  source_url : String
  content : String
  data_type : ScrapedDataType
  title : Option String
  relevance_score : ℚ
  scraped_at : ℕ
deriving DecidableEq, Repr

/-- Backtest comparison result (`models/analysis.rs`). -/
structure BacktestResult where
  analysis_id : Uuid
  previous_analysis_id : Option Uuid
  comparison_date : ℕ
  ruling_changed : Bool
  confidence_change : ℚ
  new_factors : List String
  removed_factors : List String
  summary : String
deriving DecidableEq, Repr

/-- Confidence breakdown for an analysis (`models/analysis.rs`). -/
structure ConfidenceBreakdown where
  token_data_quality : ℚ
  fatwa_relevance : ℚ
  scraping_completeness : ℚ
  consensus_level : ℚ
  data_freshness : ℚ
  overall_confidence : ℚ
deriving DecidableEq, Repr

/-- User feedback on an analysis (`models/analysis.rs`). -/
structure UserFeedback where
  user_id : String
  is_helpful : Bool
  comment : Option String
  rating : Option ℕ
  created_at : ℕ
deriving DecidableEq, Repr

/-- Complete token analysis record (`models/analysis.rs`). -/
structure TokenAnalysis where
  id : Uuid
  query_id : Uuid
  token_info : Option SolanaTokenInfo
  islamic_analysis : IslamicAnalysis
  scraped_data : List ScrapedData
  status : AnalysisStatus
  created_at : ℕ
  completed_at : Option ℕ
  processing_time_ms : Option ℕ
  confidence_breakdown : ConfidenceBreakdown
  backtest_results : List BacktestResult
  user_feedback : Option UserFeedback
deriving DecidableEq, Repr

/-! ## Rate limiter (src/crates/core/src/api/middleware.rs) -/

/-- Rate limiting configuration (`middleware.rs`). -/
structure RateLimitConfig where
  requests_per_minute : ℕ
  requests_per_hour : ℕ
  burst_limit : ℕ
deriving DecidableEq, Repr

/-- The default configuration (`impl Default for RateLimitConfig`). -/
def RateLimitConfig.default : RateLimitConfig :=
  { requests_per_minute := 30, requests_per_hour := 500, burst_limit := 10 }

/-- A window counter map: key to `(window_start, count)`.  Models one of the
`DashMap<String, (Instant, u32)>` maps; instants are in milliseconds. -/
abbrev CounterMap := String → Option (ℕ × ℕ)

/-- Rate limiter state (`middleware.rs`): configuration plus the three
per-window counter maps. -/
structure RateLimiter where
  config : RateLimitConfig
  minute_counters : CounterMap
  hour_counters : CounterMap
  burst_counters : CounterMap

/-- Constructor `RateLimiter::new`: all maps empty. -/
def RateLimiter.new (config : RateLimitConfig) : RateLimiter :=
  { config := config
    minute_counters := fun _ => none
    hour_counters := fun _ => none
    burst_counters := fun _ => none }

/-- Rate limit errors (`middleware.rs`), carrying the breached limit and the
reset duration in milliseconds. -/
inductive RateLimitError where
  | BurstLimit (limit : ℕ) (reset_in : ℕ)
  | MinuteLimit (limit : ℕ) (reset_in : ℕ)
  | HourLimit (limit : ℕ) (reset_in : ℕ)
deriving DecidableEq, Repr

/-- Insertion into a counter map (`DashMap::insert` / write through
`get_mut`). -/
def mapInsert (m : CounterMap) (key : String) (v : ℕ × ℕ) : CounterMap :=
  fun k => if k = key then some v else m k

/-- One window check of `check_rate_limit`: look up the key; inside the window
either reject at the limit or increment; outside the window reset to
`(now, 1)`; missing keys are inserted as `(now, 1)`.  `window` is the window
length in milliseconds and `mkErr` builds the error for this window. -/
def checkWindow (m : CounterMap) (key : String) (now window limit : ℕ)
    (mkErr : ℕ → ℕ → RateLimitError) : Except RateLimitError CounterMap :=
  match m key with
  | some (start, count) =>
    if now - start < window then
      if count ≥ limit then
        .error (mkErr limit (window - (now - start)))
      else
        .ok (mapInsert m key (start, count + 1))
    else
      .ok (mapInsert m key (now, 1))
  | none => .ok (mapInsert m key (now, 1))

/-- Model of `RateLimiter::check_rate_limit`.  The three windows are checked
strictly in the order burst (10 s), minute (60 s), hour (3600 s); an error
returns early, keeping the updates already made to earlier windows. -/
def check_rate_limit (rl : RateLimiter) (client_id : String) (now : ℕ) :
    Except RateLimitError Unit × RateLimiter :=
  let burst_key := client_id ++ ":burst"
  match checkWindow rl.burst_counters burst_key now 10000 rl.config.burst_limit
      .BurstLimit with
  | .error e => (.error e, rl)
  | .ok burst' =>
    let rl := { rl with burst_counters := burst' }
    let minute_key := client_id ++ ":minute"
    match checkWindow rl.minute_counters minute_key now 60000
        rl.config.requests_per_minute .MinuteLimit with
    | .error e => (.error e, rl)
    | .ok minute' =>
      let rl := { rl with minute_counters := minute' }
      let hour_key := client_id ++ ":hour"
      match checkWindow rl.hour_counters hour_key now 3600000
          rl.config.requests_per_hour .HourLimit with
      | .error e => (.error e, rl)
      | .ok hour' => (.ok (), { rl with hour_counters := hour' })

/-- Results of a sequence of `check_rate_limit` calls for one client at the
given instants, threading the limiter state. -/
def check_calls (rl : RateLimiter) (client_id : String) :
    List ℕ → List (Except RateLimitError Unit)
  | [] => []
  | t :: ts =>
    let step := check_rate_limit rl client_id t
    step.1 :: check_calls step.2 client_id ts

/-! ## Analysis worker (src/crates/core/src/actors/analyzer_actor.rs) -/

/-- Analyzer error taxonomy (`models/messages.rs`). -/
inductive AnalyzerError where
  | SolanaRpcError (msg : String)
  | AiProcessingError (msg : String)
  | InsufficientData
  | InvalidTokenAddress (msg : String)
  | VectorDbError (msg : String)
  | FatwaSearchError (msg : String)
  | AnalysisNotFound (id : Uuid)
  | BacktestFailed (msg : String)
  | InitializationFailed (msg : String)
deriving DecidableEq, Repr

/-- Environment of one `analyze_token` execution.  Everything the worker reads
from outside its arguments is an explicit oracle:

* `provider` — `ai_service.analyze_islamic_compliance`, as the function from
  the submitted prompt to the provider reply (`Result<String, String>`);
* `parse_f64` — Rust `str::parse::<f64>().ok()` used on the CONFIDENCE line;
* `show_f64` — the `f64` `Display` formatting used in prompt text;
* `token_info_fetched` — the value of
  `extract_and_fetch_token_info(query).ok()` (an RPC-backed lookup);
* `analysis_id`, `fatwa_uuid` — `Uuid::new_v4()` draws (opaque fresh ids);
* `now_ms` — `Utc::now().timestamp_millis()` at record creation;
* `processing_time_ms` — the elapsed `Instant` duration of this execution. -/
structure AnalyzeEnv where
  provider : String → Except String String
  parse_f64 : String → Option ℚ
  show_f64 : ℚ → String
  token_info_fetched : Option SolanaTokenInfo
  analysis_id : Uuid
  fatwa_uuid : Uuid
  now_ms : ℕ
  processing_time_ms : ℕ

/-- Model of `AnalyzerActor::create_analysis_prompt`. -/
def create_analysis_prompt (env : AnalyzeEnv) (query : Query)
    (token_info : Option SolanaTokenInfo) (scraped_data : List ScrapedData) :
    String :=
  let prompt :=
    "You are an Islamic finance expert. Analyze the following for Sharia compliance:\n\n"
  let prompt := prompt ++
    match query.query_type with
    | .Text text => "Query: " ++ text ++ "\n\n"
    | .TokenTicker ticker => "Token: " ++ ticker ++ "\n\n"
    | .ContractAddress address => "Contract Address: " ++ address ++ "\n\n"
    | _ => ""
  let prompt :=
    match token_info with
    | some token =>
      prompt ++ "Token Details:\n" ++
        "- Name: " ++ token.metadata.name ++ "\n" ++
        "- Symbol: " ++ token.metadata.symbol ++ "\n" ++
        "- Decimals: " ++ Nat.repr token.metadata.decimals ++ "\n" ++
        (match token.price_data with
         | some price_data =>
           "- Price: $" ++ env.show_f64 price_data.price_usd ++ "\n" ++
             "- Market Cap: $" ++ Nat.repr price_data.market_cap ++ "\n"
         | none => "") ++
        "\n"
    | none => prompt
  let prompt :=
    if scraped_data.isEmpty then prompt
    else
      prompt ++ "Additional Information:\n" ++
        strConcat ((scraped_data.take 3).map
          (fun d => "- " ++ strTake d.content 200 ++ "\n")) ++
        "\n"
  prompt ++ "Please provide:\n" ++
    "1. RULING: HALAL or HARAM\n" ++
    "2. CONFIDENCE: 0.0 to 1.0\n" ++
    "3. REASONING: Detailed explanation with Islamic principles\n" ++
    "4. SOURCES: Relevant Islamic finance sources\n"

/-- Model of `AnalyzerActor::parse_ai_analysis_result`. -/
def parse_ai_analysis_result (env : AnalyzeEnv) (analysis_result : String) :
    IslamicAnalysis :=
  let analysis_lower := strLower analysis_result
  if strContainsSub analysis_lower "error:" ||
      strContainsSub analysis_lower "unable to analyze" then
    { ruling := .Syubhat
      confidence := 3/10
      reasoning :=
        "Analysis could not be completed due to service limitations. Manual review recommended."
      supporting_fatwas := []
      risk_factors := ["Unable to complete automated analysis"]
      recommendations := ["Seek guidance from Islamic finance scholars"]
      maqashid_assessment := [] }
  else
    let ruling : IslamicPrinciple :=
      if strContainsSub analysis_lower "riba" ||
          (strContainsSub analysis_lower "interest" &&
            strContainsSub analysis_lower "haram") ||
          (strContainsSub analysis_lower "lending" &&
            strContainsSub analysis_lower "borrowing" &&
            strContainsSub analysis_lower "haram") then
        .Riba
      else if strContainsSub analysis_lower "gharar" ||
          (strContainsSub analysis_lower "uncertainty" &&
            strContainsSub analysis_lower "haram") ||
          (strContainsSub analysis_lower "speculation" &&
            strContainsSub analysis_lower "haram") then
        .Gharar
      else if strContainsSub analysis_lower "maysir" ||
          (strContainsSub analysis_lower "gambling" &&
            strContainsSub analysis_lower "haram") ||
          (strContainsSub analysis_lower "lottery" &&
            strContainsSub analysis_lower "haram") then
        .Maysir
      else if strContainsSub analysis_lower "makruh" ||
          (strContainsSub analysis_lower "discouraged" &&
            !strContainsSub analysis_lower "haram") then
        .Makruh
      else if strContainsSub analysis_lower "mustahab" ||
          strContainsSub analysis_lower "recommended" then
        .Mustahab
      else if strContainsSub analysis_lower "syubhat" ||
          strContainsSub analysis_lower "doubtful" ||
          strContainsSub analysis_lower "suspicious" then
        .Syubhat
      else if strContainsSub analysis_lower "halal" &&
          !strContainsSub analysis_lower "haram" then
        .Halal
      else if strContainsSub analysis_lower "haram" then
        .Haram
      else
        .Mubah
    let confidence : ℚ :=
      if strContainsSub analysis_result "CONFIDENCE:" then
        (((rustLines analysis_result).find?
            (fun line => strContainsSub line "CONFIDENCE:")).bind
          (fun line => (strSplitOnChar ':' line).get? 1)).bind
          (fun s => env.parse_f64 (strTrim s)) |>.getD (7/10)
      else
        7/10
    let reasoning :=
      strJoin "\n"
        ((((rustLines analysis_result).filter
            (fun line => !strContainsSub line "RULING:" &&
              !strContainsSub line "CONFIDENCE:" &&
              !strContainsSub line "SOURCES:")).map strTrim).filter
          (fun s => !strIsEmpty s))
    let sources :=
      ((((((rustLines analysis_result).dropWhile
          (fun line => !strContainsSub line "SOURCES:")).drop 1).take 3).map
        strTrim).filter (fun s => !strIsEmpty s))
    let risk_factors : List String :=
      match ruling with
      | .Riba => ["Interest-based mechanism", "Usury concerns"]
      | .Gharar => ["Excessive uncertainty", "Speculative nature"]
      | .Maysir => ["Gambling elements", "Chance-based returns"]
      | _ => []
    { ruling := ruling
      confidence := confidence
      reasoning := reasoning
      supporting_fatwas :=
        sources.map (fun s =>
          { fatwa_id := env.fatwa_uuid
            relevance_score := 8/10
            excerpt := s
            reasoning := "Referenced in AI analysis" })
      risk_factors := risk_factors
      recommendations := []
      maqashid_assessment := [] }

/-- Model of `AnalyzerActor::create_fallback_analysis`: on a provider error the
worker submits a second, fallback prompt to the same provider; a fallback
success yields a moderate-confidence record around the provider text, a second
failure yields the basic low-confidence record. -/
def create_fallback_analysis (env : AnalyzeEnv) (error_context : String) :
    IslamicAnalysis :=
  match env.provider ("Analisis Islam: " ++ error_context) with
  | .ok ai_response =>
    { ruling := .Mubah
      confidence := 6/10
      reasoning := ai_response
      supporting_fatwas := []
      risk_factors := ["Analisis menggunakan AI fallback"]
      recommendations := ["Verifikasi dengan ahli fiqh"]
      maqashid_assessment := [] }
  | .error _ =>
    { ruling := .Mubah
      confidence := 3/10
      reasoning :=
        "Analisis dasar berdasarkan prinsip umum Islam. " ++ error_context ++
          ". Direkomendasikan untuk konsultasi lebih lanjut dengan ahli fiqh."
      supporting_fatwas := []
      risk_factors := ["Analisis terbatas"]
      recommendations := ["Konsultasi dengan ahli fiqh"]
      maqashid_assessment := [] }

/-- The category-to-reliability table inside
`AnalyzerActor::calculate_confidence_breakdown`. -/
def sourceReliability : ScrapedDataType → ℚ
  | .CryptoHalalVerification => 9/10
  | .IslamicFinanceContent => 8/10
  | .UserProvidedContent => 6/10
  | .GeneralCryptoContent => 4/10
  | .Documentation => 7/10
  | .Official => 8/10
  | .News => 6/10
  | .Forum => 3/10
  | .Social => 2/10
  | .UserProvided => 5/10

/-- Model of `AnalyzerActor::calculate_confidence_breakdown`. -/
def calculate_confidence_breakdown (scraped_data : List ScrapedData)
    (processing_time_ms : ℕ) : ConfidenceBreakdown :=
  let data_quality_score : ℚ :=
    if scraped_data.isEmpty then 2/10
    else
      let avg_relevance :=
        (scraped_data.map (fun d => d.relevance_score)).sum /
          (scraped_data.length : ℚ)
      min avg_relevance 1
  let processing_speed_score : ℚ :=
    if processing_time_ms < 500 then 1
    else if processing_time_ms < 2000 then 8/10
    else 5/10
  let source_reliability_score : ℚ :=
    ((scraped_data.map (fun d => sourceReliability d.data_type)).max?).getD
      (3/10)
  { token_data_quality := data_quality_score
    fatwa_relevance := source_reliability_score
    scraping_completeness := processing_speed_score
    consensus_level := 7/10
    data_freshness := 7/10
    overall_confidence :=
      (data_quality_score + source_reliability_score +
        processing_speed_score + 7/10 + 7/10) / 5 }

/-- Model of `AnalyzerActor::analyze_token`.  The provider is consulted with
the assembled prompt; a provider failure is recovered through
`create_fallback_analysis`; the record is always completed and returned as a
success.  (The write into the analysis cache is the identity on the returned
record and is modelled separately via the cache operations below.) -/
def analyze_token (env : AnalyzeEnv) (query : Query)
    (token_info : Option SolanaTokenInfo) (scraped_data : List ScrapedData) :
    Except AnalyzerError TokenAnalysis :=
  let solana_token_info :=
    match token_info with
    | none => env.token_info_fetched
    | some t => some t
  let islamic_analysis :=
    match env.provider
        (create_analysis_prompt env query solana_token_info scraped_data) with
    | .ok analysis_result => parse_ai_analysis_result env analysis_result
    | .error e => create_fallback_analysis env e
  .ok
    { id := env.analysis_id
      query_id := query.id
      token_info := solana_token_info
      islamic_analysis := islamic_analysis
      scraped_data := scraped_data
      status := .Completed
      created_at := env.now_ms
      completed_at := some env.now_ms
      processing_time_ms := some env.processing_time_ms
      confidence_breakdown :=
        calculate_confidence_breakdown scraped_data env.processing_time_ms
      backtest_results := []
      user_feedback := none }

/-- The analyzer's in-memory cache of completed analyses, keyed by id. -/
abbrev AnalysisCache := Uuid → Option TokenAnalysis

/-- Model of `AnalyzerActor::update_analysis_with_feedback`: on a cache hit
the feedback is recorded and the confidence nudged by +0.1 (helpful, clamped
at 1) or −0.05 (not helpful, clamped at 0); on a miss `AnalysisNotFound`. -/
def update_analysis_with_feedback (cache : AnalysisCache) (analysis_id : Uuid)
    (feedback : UserFeedback) :
    Except AnalyzerError Unit × AnalysisCache :=
  match cache analysis_id with
  | some analysis =>
    let confidence :=
      if feedback.is_helpful then
        min (analysis.islamic_analysis.confidence + 1/10) 1
      else
        max (analysis.islamic_analysis.confidence - 5/100) 0
    let analysis' :=
      { analysis with
        user_feedback := some feedback
        islamic_analysis := { analysis.islamic_analysis with confidence } }
    (.ok (),
      fun k => if k = analysis_id then some analysis' else cache k)
  | none => (.error (.AnalysisNotFound analysis_id), cache)

/-- Folding a list of feedback events through
`update_analysis_with_feedback`, keeping only the evolving cache. -/
def apply_feedback_seq (cache : AnalysisCache) (analysis_id : Uuid) :
    List UserFeedback → AnalysisCache
  | [] => cache
  | fb :: rest =>
    apply_feedback_seq
      (update_analysis_with_feedback cache analysis_id fb).2 analysis_id rest

/-! ## Scrape coordinator (src/crates/core/src/actors/scraper_actor.rs) -/

/-- Scraper error taxonomy (`models/messages.rs`). -/
inductive ScraperError where
  | NetworkError (msg : String)
  | ParseError (msg : String)
  | RateLimited
  | InvalidUrl (url : String)
  | ContentTooLarge
  | Timeout
deriving DecidableEq, Repr

/-- Constructor `ScrapedData::new` (`models/analysis.rs`): the relevance score
starts at 0.0. -/
def ScrapedData.new (source_url content : String)
    (data_type : ScrapedDataType) (title : Option String) (now_ms : ℕ) :
    ScrapedData :=
  { source_url := source_url
    content := content
    data_type := data_type
    title := title
    relevance_score := 0
    scraped_at := now_ms }

/-- Model of `ScrapedData::calculate_relevance` (`models/analysis.rs`): score
1 per keyword found in the content, 2 per keyword found in the title, divided
by the number of keywords when anything matched, capped at 1; the structure is
returned with the score written back. -/
def ScrapedData.calculate_relevance (d : ScrapedData)
    (keywords : List String) : ScrapedData × ℚ :=
  let content_lower := strLower d.content
  let title_lower := (d.title.map strLower).getD ""
  let step :=
    keywords.foldl
      (fun (acc : ℚ × ℕ) keyword =>
        let keyword_lower := strLower keyword
        let acc :=
          if strContainsSub content_lower keyword_lower then
            (acc.1 + 1, acc.2 + 1)
          else acc
        if strContainsSub title_lower keyword_lower then
          (acc.1 + 2, acc.2 + 1)
        else acc)
      (0, 0)
  let score := if step.2 > 0 then step.1 / (keywords.length : ℚ) else step.1
  let score := min score 1
  ({ d with relevance_score := score }, score)

/-- Model of `ScraperActor::classify_data_type`. -/
def classify_data_type (url : String) : ScrapedDataType :=
  let url_lower := strLower url
  if strContainsSub url_lower "cryptohalal" then .Official
  else if strContainsSub url_lower "news" ||
      strContainsSub url_lower "article" then .News
  else if strContainsSub url_lower "docs" ||
      strContainsSub url_lower "documentation" then .Documentation
  else if strContainsSub url_lower "forum" ||
      strContainsSub url_lower "reddit" ||
      strContainsSub url_lower "discord" then .Forum
  else if strContainsSub url_lower "twitter" ||
      strContainsSub url_lower "telegram" ||
      strContainsSub url_lower "social" then .Social
  else .UserProvided

/-- Environment of one `scrape_single_url` execution.  The HTTP transport, URL
parsing (the `url` crate) and the HTML extraction heuristics
(`extract_relevant_content`, built on the external `scraper` crate) are
oracles:

* `url_scheme_ok` — whether `url::Url::parse` succeeds with an http/https
  scheme (`is_valid_url`);
* `http_body` — the transport outcome: the response body text for a 2xx
  response, or an error message;
* `extracted` — the text `extract_relevant_content` distills from the body
  with the given keywords;
* `now_ms` — the clock read inside `ScrapedData::new`. -/
structure ScrapeEnv where
  url_scheme_ok : Bool
  http_body : Except String String
  extracted : String → List String → String
  now_ms : ℕ

/-- Model of `ScraperActor::scrape_single_url` (semaphore acquisition and the
courtesy delay elided; the statistics counters are not modelled).  Note the
source constructs the result with `ScrapedData::new` and leaves the
`calculate_relevance(&keywords)` call commented out, so the returned
relevance score is the constructor default. -/
def scrape_single_url (env : ScrapeEnv) (url : String)
    (keywords : List String) : Except ScraperError ScrapedData :=
  if !env.url_scheme_ok then .error (.InvalidUrl url)
  else
    match env.http_body with
    | .error e => .error (.NetworkError e)
    | .ok text =>
      if text.data.length > 1000000 then .error .ContentTooLarge
      else
        let parsed_content := env.extracted text keywords
        let data_type := classify_data_type url
        .ok (ScrapedData.new url parsed_content data_type
          (some "Mock Title") env.now_ms)

/-! ## History store (src/crates/core/src/actors/history_actor.rs) -/

/-- History error taxonomy (`models/messages.rs`). -/
inductive HistoryError where
  | DatabaseError (msg : String)
  | NotFound (msg : String)
  | SerializationError (msg : String)
  | AccessDenied
deriving DecidableEq, Repr

/-- Single history entry (`models/history.rs`). -/
structure HistoryEntry where
  analysis_id : Uuid
  token_symbol : String
  ruling : IslamicPrinciple
  confidence : ℚ
  summary : String
  analyzed_at : ℕ
  token_info : Option SolanaTokenInfo
deriving DecidableEq, Repr

/-- Analysis history bucket (`models/history.rs`). -/
structure AnalysisHistory where
  entries : List HistoryEntry
  total_count : ℕ
  next_cursor : Option String
deriving DecidableEq, Repr

/-- User analysis statistics (`models/history.rs`). -/
structure UserAnalysisStats where
  user_id : String
  total_analyses : ℕ
  halal_count : ℕ
  haram_count : ℕ
  mubah_count : ℕ
  average_confidence : ℚ
  first_analysis : ℕ
  last_analysis : Option ℕ
  top_tokens : List String
deriving DecidableEq, Repr

/-- History range-query filter (`models/history.rs`; the unused `date_range`
field is omitted from queries the actor evaluates). -/
structure HistoryQuery where
  user_id : Option String
  token_identifier : Option String
  ruling_filter : Option (List IslamicPrinciple)
  min_confidence : Option ℚ
  limit : Option ℕ
  include_backtests : Bool
deriving DecidableEq, Repr

/-- A sled tree modelled as an association list in key-iteration order; every
stored value is the typed record it deserializes to (the actor logs and skips
entries that fail to deserialize; the model carries typed values, so that
branch is vacuous). -/
abbrev SledTree (α : Type) := List (String × α)

/-- First value stored under a key (`Tree::get`). -/
def treeGet {α : Type} (t : SledTree α) (key : String) : Option α :=
  (t.find? (fun kv => kv.1 = key)).map (fun kv => kv.2)

/-- Removal of a key (`Tree::remove`). -/
def treeRemove {α : Type} (t : SledTree α) (key : String) : SledTree α :=
  t.filter (fun kv => kv.1 ≠ key)

/-- State owned by the history actor: the three sled trees and the in-memory
bucket cache. -/
structure HistoryState where
  analyses_tree : SledTree TokenAnalysis
  histories_tree : SledTree AnalysisHistory
  stats_tree : SledTree UserAnalysisStats
  cache : SledTree AnalysisHistory

/-- Key-level filters of the `get_analysis_history` scan: an optional
user-prefix filter and an optional token-suffix filter on the composite
`user:token` bucket key. -/
def historyKeyFilter (query : HistoryQuery) (key : String) : Bool :=
  (match query.user_id with
   | some user_id => strStartsWith key (user_id ++ ":")
   | none => true) &&
  (match query.token_identifier with
   | some token_identifier => strEndsWith key (":" ++ token_identifier)
   | none => true)

/-- Confidence filter of `get_analysis_history`: a bucket passes when any of
its entries reaches `min_confidence` (default 0.0). -/
def historyConfidenceFilter (query : HistoryQuery)
    (history : AnalysisHistory) : Bool :=
  history.entries.any
    (fun entry => query.min_confidence.getD 0 ≤ entry.confidence)

/-- Ruling filter of `get_analysis_history`: with a filter set, a bucket
passes when any entry's ruling is in the set. -/
def historyRulingFilter (query : HistoryQuery)
    (history : AnalysisHistory) : Bool :=
  match query.ruling_filter with
  | some ruling_filter =>
    history.entries.any (fun entry => decide (entry.ruling ∈ ruling_filter))
  | none => true

/-- Timestamp of a bucket's last entry, 0 when empty — the sort key of
`get_analysis_history`. -/
def lastEntryTs (history : AnalysisHistory) : ℕ :=
  ((history.entries.getLast?).map (fun e => e.analyzed_at)).getD 0

/-- Model of `HistoryActor::get_analysis_history`.  With both a user and a
token the bucket is fetched directly (cache first, then the tree); otherwise
the histories tree is scanned under the key filters.  The confidence and
ruling filters, the backtest strip, the sort by most-recent entry and the
limit follow.  Every failure path in the source is logged and skipped, and the
reply is always `Ok`, so the model returns the list. -/
def get_analysis_history (st : HistoryState) (query : HistoryQuery) :
    List AnalysisHistory :=
  let results :=
    match query.user_id, query.token_identifier with
    | some user_id, some token_identifier =>
      let history_key := user_id ++ ":" ++ token_identifier
      match treeGet st.cache history_key with
      | some history => [history]
      | none =>
        match treeGet st.histories_tree history_key with
        | some history => [history]
        | none => []
    | _, _ =>
      (st.histories_tree.filter
        (fun kv : String × AnalysisHistory =>
          historyKeyFilter query kv.1)).map
        (fun kv : String × AnalysisHistory => kv.2)
  let results := results.filter (fun h => historyConfidenceFilter query h)
  let results := results.filter (fun h => historyRulingFilter query h)
  let results :=
    if !query.include_backtests then
      results.map (fun h =>
        { h with
          entries := h.entries.filter
            (fun entry => !strContainsSub entry.analysis_id "backtest") })
    else results
  let results :=
    results.mergeSort (fun a b => decide (lastEntryTs b ≤ lastEntryTs a))
  match query.limit with
  | some limit => results.take limit
  | none => results

/-- Total number of stored history entries across a user's buckets — the
quantity `get_user_stats` recomputes as `total_queries`. -/
def userEntryCount (st : HistoryState) (user_id : String) : ℕ :=
  ((st.histories_tree.filter
    (fun kv => strStartsWith kv.1 (user_id ++ ":"))).map
      (fun kv => kv.2.entries.length)).sum

/-- Sum of the confidences of a user's stored entries (`confidence_sum`). -/
def userConfidenceSum (st : HistoryState) (user_id : String) : ℚ :=
  ((st.histories_tree.filter
    (fun kv => strStartsWith kv.1 (user_id ++ ":"))).map
      (fun kv => (kv.2.entries.map (fun e => e.confidence)).sum)).sum

/-- Token symbols of a user's stored entries in scan order, deduplicated —
models the contents of the `unique_tokens` hash set (its iteration order is
arbitrary; the scan order is one admissible order). -/
def userUniqueTokens (st : HistoryState) (user_id : String) : List String :=
  (((st.histories_tree.filter
    (fun kv => strStartsWith kv.1 (user_id ++ ":"))).map
      (fun kv => kv.2.entries.map (fun e => e.token_symbol))).flatten).dedup

/-- The `as u64` cast of a (possibly negative) `i64`: reduction modulo
`2 ^ 64`. -/
def u64cast (z : ℤ) : ℕ :=
  (z % (2 ^ 64 : ℤ)).toNat

/-- Wrapping `u64` subtraction: the release-mode semantics of `a - b` on
`u64` (a debug build would panic on underflow instead; for `b ≤ a`, where the
operation is defined in both modes, the result is the plain difference). -/
def u64sub (a b : ℕ) : ℕ :=
  u64cast ((a : ℤ) - (b : ℤ))

/-- Whether a cached aggregate for the user exists in the stats tree and
passes the one-hour freshness test of `get_user_stats`:
`stats.last_analysis.unwrap_or(0) > now - 3600000`, the subtraction performed
on `u64`. -/
def freshCachedStats (st : HistoryState) (now_ms : ℕ) (user_id : String) :
    Bool :=
  match treeGet st.stats_tree ("user_stats:" ++ user_id) with
  | some stats =>
    decide (stats.last_analysis.getD 0 > u64sub now_ms 3600000)
  | none => false

/-- Model of `HistoryActor::get_user_stats`.  A fresh (< 1 h old) cached
aggregate is served as-is — the freshness cutoff is the `u64` subtraction
`now - 3600000` (wrapping, release semantics; only exercised when a cached
aggregate deserializes); otherwise the histories tree is scanned: zero
entries for the user yields `NotFound`, otherwise a freshly built aggregate is
cached and returned.  (`first_analysis`/`last_analysis` are mock clock reads
in the source; `halal_count`, `haram_count`, `mubah_count` are hardcoded 0.) -/
def get_user_stats (st : HistoryState) (now_ms : ℕ) (user_id : String) :
    Except HistoryError UserAnalysisStats × HistoryState :=
  let stats_key := "user_stats:" ++ user_id
  let cached :=
    match treeGet st.stats_tree stats_key with
    | some stats =>
      if stats.last_analysis.getD 0 > u64sub now_ms 3600000 then some stats
      else none
    | none => none
  match cached with
  | some stats => (.ok stats, st)
  | none =>
    let total_queries := userEntryCount st user_id
    if total_queries = 0 then
      (.error (.NotFound "No analysis history found for user"), st)
    else
      let stats : UserAnalysisStats :=
        { user_id := user_id
          total_analyses := total_queries
          halal_count := 0
          haram_count := 0
          mubah_count := 0
          average_confidence :=
            userConfidenceSum st user_id / (total_queries : ℚ)
          first_analysis := now_ms
          last_analysis := some now_ms
          top_tokens := (userUniqueTokens st user_id).take 5 }
      (.ok stats,
        { st with stats_tree := (stats_key, stats) :: treeRemove st.stats_tree stats_key })

/-- The cutoff instant of `clean_old_data` as the source computes it:
`(Utc::now() - Duration::days(days_to_keep)).timestamp_millis() as u64`.  For
a cutoff before the epoch the `i64` millisecond timestamp is negative and the
`u64` cast wraps. -/
def cleanCutoff (now_ms : ℕ) (days_to_keep : ℕ) : ℕ :=
  u64cast ((now_ms : ℤ) - (days_to_keep : ℤ) * 86400000)

/-- The per-bucket pruning step of `clean_old_data`: keep the entries
timestamped at or after the cutoff
(`entries.retain(|entry| entry.analyzed_at >= cutoff)`). -/
def pruneBucket (cutoff : ℕ) (kv : String × AnalysisHistory) :
    String × AnalysisHistory :=
  (kv.1,
    { kv.2 with
      entries := kv.2.entries.filter (fun entry => entry.analyzed_at ≥ cutoff) })

/-- Model of `HistoryActor::clean_old_data`.  First pass: walk the analyses
tree collecting the keys of records created before the cutoff, counting them,
then remove those keys.  Second pass: prune each history bucket to the entries
at or after the cutoff, dropping buckets (and their cache slots) that become
empty.  The returned count is the analyses-pass count. -/
def clean_old_data (st : HistoryState) (days_to_keep : ℕ) (now_ms : ℕ) :
    ℕ × HistoryState :=
  let cutoff := cleanCutoff now_ms days_to_keep
  let pass :=
    st.analyses_tree.foldl
      (fun (acc : List String × ℕ) kv =>
        if kv.2.created_at < cutoff then (acc.1 ++ [kv.1], acc.2 + 1) else acc)
      ([], 0)
  let keys_to_remove := pass.1
  let deleted_count := pass.2
  let analyses' := keys_to_remove.foldl treeRemove st.analyses_tree
  let pruned := st.histories_tree.map (pruneBucket cutoff)
  let emptied := (pruned.filter (fun kv => kv.2.entries.isEmpty)).map
    (fun kv => kv.1)
  let histories' := pruned.filter (fun kv => !kv.2.entries.isEmpty)
  let cache' := st.cache.filter (fun kv => !emptied.contains kv.1)
  (deleted_count,
    { st with
      analyses_tree := analyses'
      histories_tree := histories'
      cache := cache' })

/-! ## Small helpers and concrete fixtures used by the theorems below -/

/-- Whether an `Except` value is an error. -/
def exceptIsErr {ε α : Type} : Except ε α → Bool
  | .error _ => true
  | .ok _ => false

/-- Fixture: a minimal Islamic analysis verdict with a given confidence. -/
def fixVerdict (ruling : IslamicPrinciple) (confidence : ℚ) :
    IslamicAnalysis :=
  { ruling := ruling
    confidence := confidence
    reasoning := "r"
    supporting_fatwas := []
    risk_factors := []
    recommendations := []
    maqashid_assessment := [] }

/-- Fixture: an all-zero confidence breakdown. -/
def fixBreakdown : ConfidenceBreakdown :=
  { token_data_quality := 0
    fatwa_relevance := 0
    scraping_completeness := 0
    consensus_level := 0
    data_freshness := 0
    overall_confidence := 0 }

/-- Fixture: a completed analysis record with the given id, creation time and
verdict confidence. -/
def fixAnalysis (id : Uuid) (created_at : ℕ) (confidence : ℚ) :
    TokenAnalysis :=
  { id := id
    query_id := "q"
    token_info := none
    islamic_analysis := fixVerdict .Halal confidence
    scraped_data := []
    status := .Completed
    created_at := created_at
    completed_at := some created_at
    processing_time_ms := some 10
    confidence_breakdown := fixBreakdown
    backtest_results := []
    user_feedback := none }

/-- Fixture: a history entry with the given id, confidence and timestamp. -/
def fixEntry (analysis_id : Uuid) (confidence : ℚ) (analyzed_at : ℕ) :
    HistoryEntry :=
  { analysis_id := analysis_id
    token_symbol := "BTC"
    ruling := .Halal
    confidence := confidence
    summary := "s"
    analyzed_at := analyzed_at
    token_info := none }

/-- Fixture: a history bucket holding the given entries. -/
def fixBucket (entries : List HistoryEntry) : AnalysisHistory :=
  { entries := entries
    total_count := entries.length
    next_cursor := none }

/-- Fixture query used by the analyzer theorems. -/
def queryC1 : Query :=
  { id := "q-1"
    query_type := .Text "Is BTC halal"
    user_id := none
    timestamp := 0
    language := "en"
    context := none }

/-- Environment whose provider fails the main analysis prompt but answers the
fallback prompt with an empty string. -/
def envC1 : AnalyzeEnv :=
  { provider := fun p =>
      if p = "Analisis Islam: boom" then .ok "" else .error "boom"
    parse_f64 := fun _ => none
    show_f64 := fun _ => ""
    token_info_fetched := none
    analysis_id := "a-1"
    fatwa_uuid := "f-1"
    now_ms := 0
    processing_time_ms := 100 }

/-- Environment whose provider fails every call. -/
def envC1w : AnalyzeEnv :=
  { provider := fun _ => .error "downstream unavailable"
    parse_f64 := fun _ => none
    show_f64 := fun _ => ""
    token_info_fetched := none
    analysis_id := "a-2"
    fatwa_uuid := "f-2"
    now_ms := 0
    processing_time_ms := 100 }

/-- The configuration of the burst-limit scenario: `burst_limit = 2` with the
default minute/hour limits. -/
def cfgC2 : RateLimitConfig :=
  { requests_per_minute := 30, requests_per_hour := 500, burst_limit := 2 }

/-- Fixture scraped item with a known relevance score. -/
def itemC3 : ScrapedData :=
  { source_url := "https://example.com/news"
    content := "c"
    data_type := .News
    title := none
    relevance_score := 1/2
    scraped_at := 0 }

/-- Fixture analyzer cache holding one record under id `a-1`. -/
def cacheC4 : AnalysisCache :=
  fun k => if k = "a-1" then some (fixAnalysis "a-1" 0 (1/2)) else none

/-- Fixture helpful feedback. -/
def fbHelpful : UserFeedback :=
  { user_id := "u-1"
    is_helpful := true
    comment := none
    rating := some 5
    created_at := 0 }

/-- Fixture unhelpful feedback. -/
def fbUnhelpful : UserFeedback :=
  { user_id := "u-1"
    is_helpful := false
    comment := none
    rating := some 1
    created_at := 0 }

/-- Scrape environment of the relevance-score scenario: a valid URL whose
transport succeeds and whose extraction yields keyword-bearing content. -/
def envC5 : ScrapeEnv :=
  { url_scheme_ok := true
    http_body := .ok "<p>btc halal analysis</p>"
    extracted := fun _text _keywords => "cryptohalal says btc is halal"
    now_ms := 5 }

/-- History state of the retention wraparound scenario: one record created at
the current instant. -/
def stC6 : HistoryState :=
  { analyses_tree := [("a-old", fixAnalysis "a-old" 1760227200000 1)]
    histories_tree := []
    stats_tree := []
    cache := [] }

/-- History state of the retention witness: one expired and one fresh record,
plus a bucket holding one expired and one fresh entry. -/
def stC6w : HistoryState :=
  { analyses_tree :=
      [("a-1", fixAnalysis "a-1" 100 1), ("a-2", fixAnalysis "a-2" 150000000 1)]
    histories_tree :=
      [("alice:BTC", fixBucket [fixEntry "a-1" 1 100, fixEntry "a-2" 1 150000000]),
        ("bob:ETH", fixBucket [fixEntry "a-0" 1 200])]
    stats_tree := []
    cache := [] }

/-- History state of the min-confidence scenario: three buckets whose entries
have confidences 0.4, 0.9 and 0.6. -/
def stC7 : HistoryState :=
  { analyses_tree := []
    histories_tree :=
      [("anonymous:BTC", fixBucket [fixEntry "a-1" (4/10) 100]),
        ("anonymous:ETH", fixBucket [fixEntry "a-2" (9/10) 200]),
        ("anonymous:SOL", fixBucket [fixEntry "a-3" (6/10) 300])]
    stats_tree := []
    cache := [] }

/-- The min-confidence query of the scenario: threshold 0.85, no other
filters. -/
def qC7 : HistoryQuery :=
  { user_id := none
    token_identifier := none
    ruling_filter := none
    min_confidence := some (85/100)
    limit := none
    include_backtests := true }

/-- Rate limiter state of the minute-rejection scenario: the burst window is
open with one call recorded, the minute window is at its limit. -/
def rlC9a : RateLimiter :=
  { config := { requests_per_minute := 2, requests_per_hour := 500, burst_limit := 10 }
    minute_counters := mapInsert (fun _ => none) "c:minute" (0, 2)
    hour_counters := mapInsert (fun _ => none) "c:hour" (0, 1)
    burst_counters := mapInsert (fun _ => none) "c:burst" (0, 1) }

/-- Rate limiter state of the hour-rejection scenario: burst and minute
windows are open below their limits, the hour window is at its limit. -/
def rlC9b : RateLimiter :=
  { config := { requests_per_minute := 30, requests_per_hour := 3, burst_limit := 10 }
    minute_counters := mapInsert (fun _ => none) "c:minute" (0, 1)
    hour_counters := mapInsert (fun _ => none) "c:hour" (0, 3)
    burst_counters := mapInsert (fun _ => none) "c:burst" (0, 1) }

/-- The cached aggregate of the stale-statistics scenario, cached at the
instant 1760227200000 (a 2025 date, comfortably past the first hour of the
epoch, so the source's `u64` freshness subtraction is defined and
non-wrapping there). -/
def statsC10 : UserAnalysisStats :=
  { user_id := "alice"
    total_analyses := 7
    halal_count := 0
    haram_count := 0
    mubah_count := 0
    average_confidence := 1
    first_analysis := 0
    last_analysis := some 1760227200000
    top_tokens := [] }

/-- History state of the stale-statistics scenario: a fresh cached aggregate
for a user whose buckets hold no entries at all. -/
def stC10 : HistoryState :=
  { analyses_tree := []
    histories_tree := []
    stats_tree := [("user_stats:alice", statsC10)]
    cache := [] }

/-- The empty history state. -/
def stEmpty : HistoryState :=
  { analyses_tree := [], histories_tree := [], stats_tree := [], cache := [] }

/-! ## C2 — burst-window limiting -/

/-- C2: with `burst_limit = 2` (and the default minute/hour limits), a fresh
client's first two `check_rate_limit` calls within a 10-second window succeed,
the third call within that window is rejected with a `Burst` error carrying
the limit and the window remainder, and once the 10-second window has elapsed
the next call for that client succeeds again. -/
theorem check_rate_limit_burst_window :
    ∀ (c : String) (t0 t1 t2 t3 : ℕ),
      t0 ≤ t1 → t1 ≤ t2 → t2 ≤ t3 →
      t1 - t0 < 10000 → t2 - t0 < 10000 → 10000 ≤ t3 - t0 →
      check_calls (RateLimiter.new cfgC2) c [t0, t1, t2, t3] =
        [.ok (), .ok (), .error (.BurstLimit 2 (10000 - (t2 - t0))), .ok ()] := by
  intro c t0 t1 t2 t3 h01 h12 h23 hb1 hb2 hb3
  have hm1 : t1 - t0 < 60000 := by omega
  have hh1 : t1 - t0 < 3600000 := by omega
  have hb4 : ¬ (t3 - t0 < 10000) := by omega
  by_cases hm3 : t3 - t0 < 60000 <;>
    by_cases hh3 : t3 - t0 < 3600000 <;>
      simp [check_calls, check_rate_limit, checkWindow, mapInsert,
        RateLimiter.new, cfgC2, hb1, hb2, hb3, hb4, hm1, hh1, hm3, hh3]

/-- Witness for C2 at a concrete client and concrete instants. -/
theorem check_rate_limit_burst_window_witness :
    check_calls (RateLimiter.new cfgC2) "test_client" [0, 1000, 2000, 10000] =
      [.ok (), .ok (), .error (.BurstLimit 2 8000), .ok ()] :=
  check_rate_limit_burst_window "test_client" 0 1000 2000 10000
    (by decide) (by decide) (by decide) (by decide) (by decide) (by decide)

/-! ## C1 — provider failure recovery in `analyze` -/

/-- A concatenation whose left part is non-empty is non-empty. -/
theorem strIsEmpty_append_left (a b : String) (h : strIsEmpty a = false) :
    strIsEmpty (a ++ b) = false := by
  cases a with
  | mk da =>
    cases b with
    | mk db =>
      cases da with
      | nil => simp [strIsEmpty] at h
      | cons c cs => simp [strIsEmpty, String.append]

/-- Counterexample to C1 as stated: a provider that fails the main analysis
prompt but answers the fallback prompt with the empty string yields a
completed record whose reasoning string is empty. -/
theorem analyze_token_empty_fallback_reasoning :
    exceptIsErr (envC1.provider
      (create_analysis_prompt envC1 queryC1 envC1.token_info_fetched [])) =
      true ∧
    (analyze_token envC1 queryC1 none []).map
      (fun a => (a.status, a.islamic_analysis.reasoning,
        a.islamic_analysis.confidence)) =
      .ok (.Completed, "", 6/10) := by
  constructor
  · rfl
  · rfl

/-- C1 (amended): whenever the provider fails the main analysis prompt,
`analyze_token` still returns a success — a record with status `Completed`
and a confidence in [0, 1] — never propagating the provider error; and when
the provider fails every call (in particular when it always errors) the
reasoning string is additionally non-empty.  (As the counterexample shows,
a fallback call answered with an empty string makes the reasoning empty, so
non-emptiness needs the fallback call to fail as well.) -/
theorem analyze_token_provider_error_recovery :
    ∀ (env : AnalyzeEnv) (query : Query) (sd : List ScrapedData),
      exceptIsErr (env.provider
        (create_analysis_prompt env query env.token_info_fetched sd)) =
        true →
      exceptIsErr (analyze_token env query none sd) = false ∧
      (analyze_token env query none sd).map (fun a => a.status) =
        .ok .Completed ∧
      (analyze_token env query none sd).map
        (fun a => decide (0 ≤ a.islamic_analysis.confidence ∧
          a.islamic_analysis.confidence ≤ 1)) = .ok true ∧
      ((∀ p, exceptIsErr (env.provider p) = true) →
        (analyze_token env query none sd).map
          (fun a => strIsEmpty a.islamic_analysis.reasoning) = .ok false) := by
  intro env query sd herr
  cases hp : env.provider
      (create_analysis_prompt env query env.token_info_fetched sd) with
  | ok s => simp [exceptIsErr, hp] at herr
  | error e =>
    refine ⟨by simp [analyze_token, exceptIsErr], ?_, ?_, ?_⟩
    · simp [analyze_token, hp, Except.map]
    · simp only [analyze_token, hp, Except.map]
      cases hq : env.provider ("Analisis Islam: " ++ e) <;>
        simp [create_fallback_analysis, hq] <;> norm_num
    · intro hall
      cases hq : env.provider ("Analisis Islam: " ++ e) with
      | ok s2 =>
        have := hall ("Analisis Islam: " ++ e)
        simp [exceptIsErr, hq] at this
      | error e2 =>
        simp only [analyze_token, hp, Except.map, create_fallback_analysis,
          hq]
        apply congrArg
        exact strIsEmpty_append_left _ _
          (strIsEmpty_append_left _ _ rfl)

/-- Witness for C1 at the always-failing provider environment. -/
theorem analyze_token_provider_error_recovery_witness :
    exceptIsErr (envC1w.provider
      (create_analysis_prompt envC1w queryC1 envC1w.token_info_fetched [])) =
      true ∧
    exceptIsErr (analyze_token envC1w queryC1 none []) = false ∧
    (analyze_token envC1w queryC1 none []).map (fun a => a.status) =
      .ok .Completed ∧
    (analyze_token envC1w queryC1 none []).map
      (fun a => decide (0 ≤ a.islamic_analysis.confidence ∧
        a.islamic_analysis.confidence ≤ 1)) = .ok true ∧
    (analyze_token envC1w queryC1 none []).map
      (fun a => strIsEmpty a.islamic_analysis.reasoning) = .ok false := by
  have h := analyze_token_provider_error_recovery envC1w queryC1 [] rfl
  exact ⟨rfl, h.1, h.2.1, h.2.2.1, h.2.2.2 (fun p => rfl)⟩

/-! ## C5 — relevance scores of fetched items -/

/-- C5 evaluation at the failing input: a successful fetch of a keyword-rich
page returns a collected item with `relevance_score = 0`, because
`scrape_single_url` constructs the item with `ScrapedData::new` (default score
0.0) and leaves its `calculate_relevance(&keywords)` call commented out —
while `calculate_relevance` itself, applied to that very item and keyword
list, would produce the keyword-overlap score 1. -/
theorem scrape_single_url_relevance_zero :
    (scrape_single_url envC5 "https://cryptohalal.cc/token/btc"
      ["halal"]).map (fun d => d.relevance_score) = .ok 0 ∧
    strContainsSub (strLower "cryptohalal says btc is halal")
      (strLower "halal") = true ∧
    ((ScrapedData.new "https://cryptohalal.cc/token/btc"
        "cryptohalal says btc is halal"
        (classify_data_type "https://cryptohalal.cc/token/btc")
        (some "Mock Title") 5).calculate_relevance ["halal"]).2 = 1 := by
  have hc : strContainsSub (strLower "cryptohalal says btc is halal")
      (strLower "halal") = true := by decide
  have ht : strContainsSub (strLower "Mock Title") (strLower "halal") =
      false := by decide
  refine ⟨rfl, hc, ?_⟩
  simp [ScrapedData.calculate_relevance, ScrapedData.new, hc, ht]

/-! ## C3 — confidence breakdown mean and bounds -/

/-- Every value of the category-reliability table lies in [0, 1]. -/
theorem sourceReliability_bounds (t : ScrapedDataType) :
    0 ≤ sourceReliability t ∧ sourceReliability t ≤ 1 := by
  cases t <;> constructor <;> norm_num [sourceReliability]

/-- C3: for collected items whose relevance scores lie in [0, 1] and any
processing time, the confidence breakdown has `overall_confidence` equal to
the arithmetic mean of its five components, each component lies in [0, 1],
and hence `overall_confidence` lies in [0, 1]. -/
theorem calculate_confidence_breakdown_mean_bounds :
    ∀ (sd : List ScrapedData) (pt : ℕ),
      (∀ d ∈ sd, 0 ≤ d.relevance_score ∧ d.relevance_score ≤ 1) →
      (calculate_confidence_breakdown sd pt).overall_confidence =
        ((calculate_confidence_breakdown sd pt).token_data_quality +
          (calculate_confidence_breakdown sd pt).fatwa_relevance +
          (calculate_confidence_breakdown sd pt).scraping_completeness +
          (calculate_confidence_breakdown sd pt).consensus_level +
          (calculate_confidence_breakdown sd pt).data_freshness) / 5 ∧
      (0 ≤ (calculate_confidence_breakdown sd pt).token_data_quality ∧
        (calculate_confidence_breakdown sd pt).token_data_quality ≤ 1) ∧
      (0 ≤ (calculate_confidence_breakdown sd pt).fatwa_relevance ∧
        (calculate_confidence_breakdown sd pt).fatwa_relevance ≤ 1) ∧
      (0 ≤ (calculate_confidence_breakdown sd pt).scraping_completeness ∧
        (calculate_confidence_breakdown sd pt).scraping_completeness ≤ 1) ∧
      (0 ≤ (calculate_confidence_breakdown sd pt).consensus_level ∧
        (calculate_confidence_breakdown sd pt).consensus_level ≤ 1) ∧
      (0 ≤ (calculate_confidence_breakdown sd pt).data_freshness ∧
        (calculate_confidence_breakdown sd pt).data_freshness ≤ 1) ∧
      (0 ≤ (calculate_confidence_breakdown sd pt).overall_confidence ∧
        (calculate_confidence_breakdown sd pt).overall_confidence ≤ 1) := by
  intro sd pt h
  have hdq : 0 ≤ (calculate_confidence_breakdown sd pt).token_data_quality ∧
      (calculate_confidence_breakdown sd pt).token_data_quality ≤ 1 := by
    simp only [calculate_confidence_breakdown]
    split
    · norm_num
    · next hne =>
      have hlen : 0 < sd.length := by
        cases sd with
        | nil => simp [List.isEmpty] at hne
        | cons a l => simp
      have hsum : 0 ≤ (sd.map (fun d => d.relevance_score)).sum := by
        apply List.sum_nonneg
        intro x hx
        obtain ⟨d, hd, rfl⟩ := List.mem_map.mp hx
        exact (h d hd).1
      have havg :
          0 ≤ (sd.map (fun d => d.relevance_score)).sum / (sd.length : ℚ) :=
        div_nonneg hsum (by exact_mod_cast hlen.le)
      exact ⟨le_min havg (by norm_num), min_le_right _ _⟩
  have hsr : 0 ≤ (calculate_confidence_breakdown sd pt).fatwa_relevance ∧
      (calculate_confidence_breakdown sd pt).fatwa_relevance ≤ 1 := by
    simp only [calculate_confidence_breakdown]
    rcases hmax : (sd.map (fun d => sourceReliability d.data_type)).max? with
      _ | m
    · simp [hmax]
      norm_num
    · have hmem := List.max?_mem (fun a b => max_choice a b) hmax
      obtain ⟨d, _, rfl⟩ := List.mem_map.mp hmem
      simpa [hmax] using sourceReliability_bounds d.data_type
  have hps : 0 ≤ (calculate_confidence_breakdown sd pt).scraping_completeness ∧
      (calculate_confidence_breakdown sd pt).scraping_completeness ≤ 1 := by
    simp only [calculate_confidence_breakdown]
    split_ifs <;> norm_num
  refine ⟨rfl, hdq, hsr, hps, by norm_num [calculate_confidence_breakdown],
    by norm_num [calculate_confidence_breakdown], ?_⟩
  have hform : (calculate_confidence_breakdown sd pt).overall_confidence =
      ((calculate_confidence_breakdown sd pt).token_data_quality +
        (calculate_confidence_breakdown sd pt).fatwa_relevance +
        (calculate_confidence_breakdown sd pt).scraping_completeness +
        (calculate_confidence_breakdown sd pt).consensus_level +
        (calculate_confidence_breakdown sd pt).data_freshness) / 5 := rfl
  have hcl : (calculate_confidence_breakdown sd pt).consensus_level = 7/10 :=
    rfl
  have hdf : (calculate_confidence_breakdown sd pt).data_freshness = 7/10 :=
    rfl
  rw [hform, hcl, hdf]
  constructor
  · apply div_nonneg _ (by norm_num)
    linarith [hdq.1, hsr.1, hps.1]
  · rw [div_le_one (by norm_num)]
    linarith [hdq.2, hsr.2, hps.2]

/-- Witness for C3 at one concrete item and processing time. -/
theorem calculate_confidence_breakdown_mean_bounds_witness :
    (0 ≤ (calculate_confidence_breakdown [itemC3] 100).overall_confidence ∧
      (calculate_confidence_breakdown [itemC3] 100).overall_confidence ≤ 1) ∧
    (calculate_confidence_breakdown [itemC3] 100).overall_confidence =
      ((calculate_confidence_breakdown [itemC3] 100).token_data_quality +
        (calculate_confidence_breakdown [itemC3] 100).fatwa_relevance +
        (calculate_confidence_breakdown [itemC3] 100).scraping_completeness +
        (calculate_confidence_breakdown [itemC3] 100).consensus_level +
        (calculate_confidence_breakdown [itemC3] 100).data_freshness) / 5 := by
  have hb :=
    calculate_confidence_breakdown_mean_bounds [itemC3] 100
      (by intro d hd; simp at hd; subst hd; norm_num [itemC3])
  exact ⟨hb.2.2.2.2.2.2, hb.1⟩

/-! ## C4 — feedback adjustment, clamping and missing ids -/

/-- Confidence bound preservation along any sequence of feedback
applications. -/
theorem apply_feedback_seq_bounds :
    ∀ (fbs : List UserFeedback) (cache : AnalysisCache) (id : Uuid)
      (a : TokenAnalysis),
      cache id = some a →
      0 ≤ a.islamic_analysis.confidence →
      a.islamic_analysis.confidence ≤ 1 →
      ((apply_feedback_seq cache id fbs) id).map
        (fun a' => decide (0 ≤ a'.islamic_analysis.confidence ∧
          a'.islamic_analysis.confidence ≤ 1)) = some true := by
  intro fbs
  induction fbs with
  | nil =>
    intro cache id a ha h0 h1
    simp [apply_feedback_seq, ha, h0, h1]
  | cons fb rest ih =>
    intro cache id a ha h0 h1
    simp only [apply_feedback_seq]
    by_cases hfb : fb.is_helpful
    · apply ih _ _
        { a with
          user_feedback := some fb
          islamic_analysis :=
            { a.islamic_analysis with
              confidence := min (a.islamic_analysis.confidence + 1/10) 1 } }
      · simp [update_analysis_with_feedback, ha, hfb]
      · exact le_min (by linarith) (by norm_num)
      · exact min_le_right _ _
    · apply ih _ _
        { a with
          user_feedback := some fb
          islamic_analysis :=
            { a.islamic_analysis with
              confidence := max (a.islamic_analysis.confidence - 5/100) 0 } }
      · simp [update_analysis_with_feedback, ha, hfb]
      · exact le_max_right _ _
      · exact max_le (by linarith) (by norm_num)

/-- C4: feedback on a cached id succeeds and moves the stored confidence by
+0.1 (helpful) or −0.05 (otherwise), clamped to [0, 1]; starting from a
confidence in [0, 1], any sequence of feedback applications keeps it in
[0, 1]; feedback on a missing id returns `AnalysisNotFound`. -/
theorem update_analysis_with_feedback_spec :
    ∀ (cache : AnalysisCache) (id : Uuid) (fb : UserFeedback),
      (cache id = none →
        update_analysis_with_feedback cache id fb =
          (.error (.AnalysisNotFound id), cache)) ∧
      (∀ a, cache id = some a →
        (update_analysis_with_feedback cache id fb).1 = .ok () ∧
        ((update_analysis_with_feedback cache id fb).2 id).map
          (fun a' => a'.islamic_analysis.confidence) =
          some (if fb.is_helpful then
              min (a.islamic_analysis.confidence + 1/10) 1
            else max (a.islamic_analysis.confidence - 5/100) 0)) ∧
      (∀ a, cache id = some a →
        0 ≤ a.islamic_analysis.confidence →
        a.islamic_analysis.confidence ≤ 1 →
        ∀ fbs : List UserFeedback,
          ((apply_feedback_seq cache id fbs) id).map
            (fun a' => decide (0 ≤ a'.islamic_analysis.confidence ∧
              a'.islamic_analysis.confidence ≤ 1)) = some true) := by
  intro cache id fb
  refine ⟨?_, ?_, ?_⟩
  · intro hnone
    simp [update_analysis_with_feedback, hnone]
  · intro a ha
    constructor
    · simp [update_analysis_with_feedback, ha]
    · by_cases hfb : fb.is_helpful <;>
        simp [update_analysis_with_feedback, ha, hfb]
  · intro a ha h0 h1 fbs
    exact apply_feedback_seq_bounds fbs cache id a ha h0 h1

/-- Witness for C4 at a concrete cache, id and feedback values. -/
theorem update_analysis_with_feedback_spec_witness :
    update_analysis_with_feedback cacheC4 "missing" fbHelpful =
      (.error (.AnalysisNotFound "missing"), cacheC4) ∧
    ((update_analysis_with_feedback cacheC4 "a-1" fbHelpful).2 "a-1").map
      (fun a' => a'.islamic_analysis.confidence) =
      some (min ((1 : ℚ)/2 + 1/10) 1) ∧
    ((apply_feedback_seq cacheC4 "a-1" [fbHelpful, fbUnhelpful]) "a-1").map
      (fun a' => decide (0 ≤ a'.islamic_analysis.confidence ∧
        a'.islamic_analysis.confidence ≤ 1)) = some true := by
  refine ⟨(update_analysis_with_feedback_spec cacheC4 "missing" fbHelpful).1
      rfl, ?_, ?_⟩
  · have hx :=
      ((update_analysis_with_feedback_spec cacheC4 "a-1" fbHelpful).2.1
        (fixAnalysis "a-1" 0 (1/2)) (by norm_num [cacheC4])).2
    simpa [fbHelpful, fixAnalysis, fixVerdict] using hx
  · exact (update_analysis_with_feedback_spec cacheC4 "a-1" fbHelpful).2.2
      (fixAnalysis "a-1" 0 (1/2)) (by norm_num [cacheC4])
      (by norm_num [fixAnalysis, fixVerdict])
      (by norm_num [fixAnalysis, fixVerdict]) [fbHelpful, fbUnhelpful]

/-! ## C7 — min-confidence filtering of history queries -/

/-- C7: on the scan path (no combined user+token direct lookup), with no
limit and backtests included, a bucket appears in the query result exactly
when its key passes the user/token filters, at least one of its entries
reaches the `min_confidence` threshold, and the ruling filter passes; in the
concrete scenario with entry confidences 0.4 / 0.9 / 0.6 and threshold 0.85,
only the bucket holding the 0.9 entry is returned. -/
theorem get_analysis_history_min_confidence :
    (∀ (st : HistoryState) (query : HistoryQuery) (h : AnalysisHistory),
      (query.user_id = none ∨ query.token_identifier = none) →
      query.limit = none →
      query.include_backtests = true →
      (h ∈ get_analysis_history st query ↔
        (∃ key, (key, h) ∈ st.histories_tree ∧
          historyKeyFilter query key = true) ∧
        (∃ e ∈ h.entries, query.min_confidence.getD 0 ≤ e.confidence) ∧
        historyRulingFilter query h = true)) ∧
    get_analysis_history stC7 qC7 = [fixBucket [fixEntry "a-2" (9/10) 200]] := by
  constructor
  · intro st query h hscan hlimit hbt
    have hpipe : get_analysis_history st query =
        ((((st.histories_tree.filter
            (fun kv : String × AnalysisHistory =>
              historyKeyFilter query kv.1)).map
            (fun kv : String × AnalysisHistory => kv.2)).filter
          (fun h => historyConfidenceFilter query h)).filter
          (fun h => historyRulingFilter query h)).mergeSort
          (fun a b => decide (lastEntryTs b ≤ lastEntryTs a)) := by
      rcases hu : query.user_id with _ | u <;>
        rcases ht : query.token_identifier with _ | t <;>
          simp only [get_analysis_history, hu, ht, hlimit, hbt,
            Bool.not_true, Bool.false_eq_true, if_false]
      rw [hu] at hscan
      rw [ht] at hscan
      simp at hscan
    rw [hpipe, List.mem_mergeSort, List.mem_filter, List.mem_filter]
    constructor
    · rintro ⟨⟨hmem, hconf⟩, hrul⟩
      obtain ⟨kv, hkv, rfl⟩ := List.mem_map.mp hmem
      have hkf := List.mem_filter.mp hkv
      refine ⟨⟨kv.1, ?_, hkf.2⟩, ?_, hrul⟩
      · simpa using hkf.1
      · simpa [historyConfidenceFilter, List.any_eq_true] using hconf
    · rintro ⟨⟨key, hmem, hkf⟩, hconf, hrul⟩
      refine ⟨⟨?_, ?_⟩, hrul⟩
      · exact List.mem_map.mpr ⟨(key, h), List.mem_filter.mpr ⟨hmem, hkf⟩,
          rfl⟩
      · simpa [historyConfidenceFilter, List.any_eq_true] using hconf
  · have hfil : get_analysis_history stC7 qC7 =
        ([fixBucket [fixEntry "a-2" (9/10) 200]]).mergeSort
          (fun a b => decide (lastEntryTs b ≤ lastEntryTs a)) := by
      simp only [get_analysis_history, stC7, qC7]
      norm_num [historyKeyFilter, historyConfidenceFilter,
        historyRulingFilter, fixBucket, fixEntry]
    rw [hfil]
    exact List.Perm.eq_singleton (List.mergeSort_perm _ _)

/-- Witness for C7: the 0.9-entry bucket is a member of the concrete query
result, through the membership characterization. -/
theorem get_analysis_history_min_confidence_witness :
    fixBucket [fixEntry "a-2" (9/10) 200] ∈ get_analysis_history stC7 qC7 := by
  apply (get_analysis_history_min_confidence.1 stC7 qC7
      (fixBucket [fixEntry "a-2" (9/10) 200]) (Or.inl rfl) rfl rfl).mpr
  refine ⟨⟨"anonymous:ETH", ?_, rfl⟩,
    ⟨fixEntry "a-2" (9/10) 200, ?_, ?_⟩, rfl⟩
  · simp [stC7]
  · simp [fixBucket]
  · norm_num [qC7, fixEntry]

/-! ## C10 — user statistics for users without history -/

/-- Counterexample to C10 as stated: a user with zero stored history entries
but a fresh (< 1 h old) cached aggregate in the stats tree receives the
cached aggregate as a success, not `NotFound`.  The query instant equals the
caching instant 1760227200000, so `now - 3600000` is an ordinary in-range
`u64` subtraction (1760223600000) and the freshness test genuinely passes in
the source. -/
theorem get_user_stats_fresh_cache_bypass :
    (3600000 ≤ 1760227200000 ∧
      u64sub 1760227200000 3600000 = 1760227200000 - 3600000) ∧
    userEntryCount stC10 "alice" = 0 ∧
    (get_user_stats stC10 1760227200000 "alice").1 = .ok statsC10 := by
  exact ⟨⟨by decide, by decide⟩, rfl, rfl⟩

/-- C10 (amended): whenever no fresh cached aggregate is served (none stored,
or the stored one is an hour old or older), `get_user_stats` returns
`NotFound` exactly when the user has zero stored history entries across all
buckets — so a recomputed non-error aggregate exists only for users with at
least one entry. -/
theorem get_user_stats_notfound_spec :
    ∀ (st : HistoryState) (now_ms : ℕ) (user_id : String),
      freshCachedStats st now_ms user_id = false →
      ((get_user_stats st now_ms user_id).1 =
        .error (.NotFound "No analysis history found for user") ↔
        userEntryCount st user_id = 0) := by
  intro st now_ms u hf
  unfold freshCachedStats at hf
  rcases hg : treeGet st.stats_tree ("user_stats:" ++ u) with _ | s
  · rw [hg] at hf
    by_cases h0 : userEntryCount st u = 0 <;>
      simp [get_user_stats, hg, h0]
  · rw [hg] at hf
    simp only [decide_eq_false_iff_not, not_lt] at hf
    by_cases h0 : userEntryCount st u = 0 <;>
      simp [get_user_stats, hg, h0, Nat.not_lt.mpr hf]

/-- Witness for C10 at the empty state and a realistic instant. -/
theorem get_user_stats_notfound_spec_witness :
    freshCachedStats stEmpty 1760227200000 "bob" = false ∧
    (get_user_stats stEmpty 1760227200000 "bob").1 =
      .error (.NotFound "No analysis history found for user") := by
  refine ⟨rfl, ?_⟩
  exact (get_user_stats_notfound_spec stEmpty 1760227200000 "bob" rfl).mpr rfl

/-! ## C6 — retention sweep -/

/-- The analyses pass of `clean_old_data`: the fold collects exactly the keys
of the records older than the cutoff and counts them. -/
theorem clean_pass_spec (cutoff : ℕ) (l : SledTree TokenAnalysis) :
    ∀ acc : List String × ℕ,
      l.foldl
        (fun acc kv =>
          if kv.2.created_at < cutoff then (acc.1 ++ [kv.1], acc.2 + 1)
          else acc) acc =
      (acc.1 ++
        (l.filter (fun kv => kv.2.created_at < cutoff)).map (fun kv => kv.1),
        acc.2 +
          (l.filter (fun kv => kv.2.created_at < cutoff)).length) := by
  induction l with
  | nil => intro acc; simp
  | cons kv rest ih =>
    intro acc
    by_cases hkv : kv.2.created_at < cutoff
    · simp [List.foldl_cons, hkv, ih]
      omega
    · simp [List.foldl_cons, hkv, ih]

/-- Removing a list of keys one by one filters out exactly the slots whose
key is in the list. -/
theorem foldl_treeRemove_spec {α : Type} (keys : List String) :
    ∀ t : SledTree α,
      keys.foldl treeRemove t =
        t.filter (fun kv => decide (kv.1 ∉ keys)) := by
  induction keys with
  | nil => intro t; simp
  | cons k ks ih =>
    intro t
    have : treeRemove t k = t.filter (fun kv => decide (kv.1 ≠ k)) := rfl
    rw [List.foldl_cons, ih, this, List.filter_filter]
    apply List.filter_congr
    intro kv _
    by_cases h1 : kv.1 = k <;> by_cases h2 : kv.1 ∈ ks <;>
      simp [h1, h2]

/-- Under the hypotheses that keep the cutoff at or after the Unix epoch, the
raw `u64` cutoff equals the natural-number cutoff. -/
theorem cleanCutoff_eq (days now : ℕ) (h1 : days * 86400000 ≤ now)
    (h2 : now < 2 ^ 64) :
    cleanCutoff now days = now - days * 86400000 := by
  unfold cleanCutoff u64cast
  have hz : (now : ℤ) - (days : ℤ) * 86400000 =
      ((now - days * 86400000 : ℕ) : ℤ) := by
    push_cast [h1]
    ring
  have hlt : ((now - days * 86400000 : ℕ) : ℤ) < (2 ^ 64 : ℤ) := by
    exact_mod_cast lt_of_le_of_lt (Nat.sub_le now (days * 86400000)) h2
  rw [hz, Int.emod_eq_of_lt (by positivity) hlt]
  simp

/-- C6 (amended): when the cutoff `now − retain_days` does not precede the
Unix epoch (so the source's `i64 → u64` timestamp cast does not wrap), the
sweep removes exactly the analysis records created before the cutoff and
returns their number as the deleted count, keeps precisely the history
entries timestamped at or after the cutoff, and drops a history bucket
entirely exactly when all its entries expire.  (The counterexample shows the
restriction is needed: for a cutoff before the epoch the cast wraps and every
record is deleted.) -/
theorem clean_old_data_retention_spec :
    ∀ (st : HistoryState) (days now : ℕ),
      days * 86400000 ≤ now → now < 2 ^ 64 →
      (st.analyses_tree.map (fun kv => kv.1)).Nodup →
      (clean_old_data st days now).1 =
        (st.analyses_tree.filter
          (fun kv => kv.2.created_at < now - days * 86400000)).length ∧
      (clean_old_data st days now).2.analyses_tree =
        st.analyses_tree.filter
          (fun kv => ¬ kv.2.created_at < now - days * 86400000) ∧
      (clean_old_data st days now).2.histories_tree =
        (st.histories_tree.map
          (pruneBucket (now - days * 86400000))).filter
          (fun kv => !kv.2.entries.isEmpty) := by
  intro st days now h1 h2 hnd
  have hcut := cleanCutoff_eq days now h1 h2
  refine ⟨?_, ?_, ?_⟩
  · simp only [clean_old_data, hcut, clean_pass_spec]
    simp
  · simp only [clean_old_data, hcut, clean_pass_spec]
    simp only [List.nil_append, Nat.zero_add, foldl_treeRemove_spec]
    apply List.filter_congr
    intro kv hkv
    simp only [decide_eq_decide]
    constructor
    · intro hni hlt
      exact hni (List.mem_map.mpr ⟨kv, List.mem_filter.mpr ⟨hkv, by
        simpa using hlt⟩, rfl⟩)
    · intro hge hmem
      obtain ⟨kv', hkv', hfst⟩ := List.mem_map.mp hmem
      have hkv'' := List.mem_filter.mp hkv'
      have : kv' = kv :=
        List.inj_on_of_nodup_map hnd hkv''.1 hkv hfst
      subst this
      exact hge (by simpa using hkv''.2)
  · simp only [clean_old_data, hcut]

/-- Witness for C6 at a concrete mixed state (one expired and one fresh
record; a bucket with one expired and one fresh entry; a bucket whose only
entry expires). -/
theorem clean_old_data_retention_spec_witness :
    (clean_old_data stC6w 1 200000000).1 =
      (stC6w.analyses_tree.filter
        (fun kv => kv.2.created_at < 200000000 - 1 * 86400000)).length ∧
    (clean_old_data stC6w 1 200000000).2.analyses_tree =
      stC6w.analyses_tree.filter
        (fun kv => ¬ kv.2.created_at < 200000000 - 1 * 86400000) ∧
    (clean_old_data stC6w 1 200000000).2.histories_tree =
      (stC6w.histories_tree.map
        (pruneBucket (200000000 - 1 * 86400000))).filter
        (fun kv => !kv.2.entries.isEmpty) :=
  clean_old_data_retention_spec stC6w 1 200000000 (by decide) (by decide)
    (by decide)

/-- Counterexample to C6 as universally stated: with `retain_days = 30000`
(about 82 years) the cutoff lies before the Unix epoch, the `as u64` cast of
the negative millisecond timestamp wraps to a huge value, and the sweep
deletes a record created at the current instant — a record whose timestamp
does not precede the cutoff — reporting one deletion. -/
theorem clean_old_data_epoch_wrap :
    ((1760227200000 : ℤ) - 30000 * 86400000 < 0) ∧
    ¬ (((fixAnalysis "a-old" 1760227200000 1).created_at : ℤ) <
      (1760227200000 : ℤ) - 30000 * 86400000) ∧
    (clean_old_data stC6 30000 1760227200000).1 = 1 ∧
    (clean_old_data stC6 30000 1760227200000).2.analyses_tree = [] := by
  refine ⟨by decide, by decide, rfl, rfl⟩

/-! ## C9 — window evaluation order and partial increments on rejection -/

/-- C9: `check_rate_limit` evaluates burst, then minute, then hour,
incrementing each window before checking the next.  A call rejected by the
minute window has already incremented the burst counter (hour untouched); a
call rejected by the hour window has already incremented both the burst and
the minute counters — the per-call state change is not atomic across windows
on error. -/
theorem check_rate_limit_window_order_increments :
    ∀ (rl : RateLimiter) (c : String) (now tb cb tm cm th ch : ℕ),
      (rl.burst_counters (c ++ ":burst") = some (tb, cb) →
        now - tb < 10000 → cb < rl.config.burst_limit →
        rl.minute_counters (c ++ ":minute") = some (tm, cm) →
        now - tm < 60000 → rl.config.requests_per_minute ≤ cm →
        (check_rate_limit rl c now).1 =
          .error (.MinuteLimit rl.config.requests_per_minute
            (60000 - (now - tm))) ∧
        (check_rate_limit rl c now).2.burst_counters (c ++ ":burst") =
          some (tb, cb + 1) ∧
        (check_rate_limit rl c now).2.hour_counters = rl.hour_counters) ∧
      (rl.burst_counters (c ++ ":burst") = some (tb, cb) →
        now - tb < 10000 → cb < rl.config.burst_limit →
        rl.minute_counters (c ++ ":minute") = some (tm, cm) →
        now - tm < 60000 → cm < rl.config.requests_per_minute →
        rl.hour_counters (c ++ ":hour") = some (th, ch) →
        now - th < 3600000 → rl.config.requests_per_hour ≤ ch →
        (check_rate_limit rl c now).1 =
          .error (.HourLimit rl.config.requests_per_hour
            (3600000 - (now - th))) ∧
        (check_rate_limit rl c now).2.burst_counters (c ++ ":burst") =
          some (tb, cb + 1) ∧
        (check_rate_limit rl c now).2.minute_counters (c ++ ":minute") =
          some (tm, cm + 1)) := by
  intro rl c now tb cb tm cm th ch
  constructor
  · intro hb h10 hlt hm h60 hge
    simp [check_rate_limit, checkWindow, mapInsert, hb, hm, h10, h60,
      if_neg (by omega : ¬ cb ≥ rl.config.burst_limit),
      if_pos (by omega : cm ≥ rl.config.requests_per_minute)]
  · intro hb h10 hltb hm h60 hltm hh h3600 hge
    simp [check_rate_limit, checkWindow, mapInsert, hb, hm, hh, h10, h60,
      h3600,
      if_neg (by omega : ¬ cb ≥ rl.config.burst_limit),
      if_neg (by omega : ¬ cm ≥ rl.config.requests_per_minute),
      if_pos (by omega : ch ≥ rl.config.requests_per_hour)]

/-- Witness for C9 at the two concrete scenario states. -/
theorem check_rate_limit_window_order_increments_witness :
    ((check_rate_limit rlC9a "c" 5000).1 = .error (.MinuteLimit 2 55000) ∧
      (check_rate_limit rlC9a "c" 5000).2.burst_counters ("c" ++ ":burst") =
        some (0, 2) ∧
      (check_rate_limit rlC9a "c" 5000).2.hour_counters =
        rlC9a.hour_counters) ∧
    ((check_rate_limit rlC9b "c" 5000).1 = .error (.HourLimit 3 3595000) ∧
      (check_rate_limit rlC9b "c" 5000).2.burst_counters ("c" ++ ":burst") =
        some (0, 2) ∧
      (check_rate_limit rlC9b "c" 5000).2.minute_counters ("c" ++ ":minute") =
        some (0, 2)) := by
  constructor
  · exact
      (check_rate_limit_window_order_increments rlC9a "c" 5000 0 1 0 2 0 0).1
        (by decide) (by decide) (by decide) (by decide) (by decide)
        (by decide)
  · exact
      (check_rate_limit_window_order_increments rlC9b "c" 5000 0 1 0 1 0 3).2
        (by decide) (by decide) (by decide) (by decide) (by decide)
        (by decide) (by decide) (by decide) (by decide)
